import Mathlib

/-!
Shallow embedding of the Catholic Saints network visualization
(`src/index.js`) and proofs about its claims.

The program renders a force-directed graph of saints.  The JS numbers the
program owns are used only through `Math.max` / `Math.min`, addition and
subtraction, so coordinates, radii and years are embedded as integers,
while the opacity styles (0.7, 0.2, 0.1) are rationals.  DOM state is made
explicit: each visual element carries the datum it is bound to together
with the style attributes the program sets on it.
-/

namespace Saints

/-- Viewport width, `const width = 1200`. -/
def width : Int := 1200

/-- Viewport height, `const height = 700`. -/
def height : Int := 700

/-- A node record of `data/saints.json` together with the mutable fields
(`x`, `y`, `fx`, `fy`) the simulation and the drag handlers own. -/
structure SaintNode where
  id : String
  name : String
  type : String
  size : Int
  feastDay : String
  birthYear : Int
  deathYear : Int
  location : String
  patronage : String
  description : String
  x : Int
  y : Int
  fx : Option Int
  fy : Option Int
  deriving Repr, DecidableEq

/-- A link record after `d3.forceLink(...).id(d => d.id)` has resolved the
`source` and `target` identifiers to node objects. -/
structure SaintLink where
  source : SaintNode
  target : SaintNode
  type : String
  deriving Repr, DecidableEq

/-- The per-node body of `updatePositions`: clamp `x` into
`[size, width - size]` and `y` into `[size, height - size]` with
`Math.max` / `Math.min`. -/
def updateNodePosition (d : SaintNode) : SaintNode :=
  { d with
    x := max d.size (min (width - d.size) d.x)
    y := max d.size (min (height - d.size) d.y) }

/-- The clamp loop of `updatePositions` over `saintsData.nodes`. -/
def updatePositions (nodes : List SaintNode) : List SaintNode :=
  nodes.map updateNodePosition

/-- The `dragstarted` handler: pin the subject at its current position. -/
def dragstarted (subject : SaintNode) : SaintNode :=
  { subject with fx := some subject.x, fy := some subject.y }

/-- The `dragged` handler: pin the subject at the pointer position, clamped
to the viewport by the node's radius. -/
def dragged (subject : SaintNode) (eventX eventY : Int) : SaintNode :=
  let radius := subject.size
  { subject with
    fx := some (max radius (min (width - radius) eventX))
    fy := some (max radius (min (height - radius) eventY)) }

/-- The `dragended` handler: unpin the subject. -/
def dragended (subject : SaintNode) : SaintNode :=
  { subject with fx := none, fy := none }

/-- The parsed JSON document: `{ nodes: [...], links: [...] }`. -/
structure SaintsData where
  nodes : List SaintNode
  links : List SaintLink
  deriving Repr, DecidableEq

/-- The `colorMap` object; an object lookup in JS yields `undefined` for a
missing key, hence `Option`. -/
def colorMap (t : String) : Option String :=
  if t = "apostle" then some "#ff6b6b"
  else if t = "doctor" then some "#4ecdc4"
  else if t = "founder" then some "#95e1d3"
  else if t = "martyr" then some "#ffd93d"
  else if t = "mystic" then some "#a8e6cf"
  else none

/-- Drop the first occurrence of the pattern from the character list, as the
one-argument JS `String.replace` with an empty replacement does. -/
def removeFirst (pat : List Char) : List Char → List Char
  | [] => []
  | c :: rest =>
    if pat.isPrefixOf (c :: rest) then (c :: rest).drop pat.length
    else c :: removeFirst pat rest

/-- Label text: `d.name.replace("St. ", "").replace("Blessed ", "")`. -/
def labelText (name : String) : String :=
  String.mk (removeFirst "Blessed ".data (removeFirst "St. ".data name.data))

/-- A `line` element as `setupVisualization` creates it: bound to a link,
with the stroke width the join sets. -/
structure LineElem where
  datum : SaintLink
  strokeWidth : Int
  deriving Repr, DecidableEq

/-- A `circle` element as `setupVisualization` creates it: bound to a node,
with radius `d.size` and fill `colorMap[d.type]`. -/
structure CircleElem where
  datum : SaintNode
  r : Int
  fill : Option String
  deriving Repr, DecidableEq

/-- A `text` element as `setupVisualization` creates it: bound to a node,
with the stripped name and vertical offset `d.size + 15`. -/
structure TextElem where
  datum : SaintNode
  text : String
  dy : Int
  deriving Repr, DecidableEq

/-- The SVG contents `setupVisualization` builds: one line per link, one
circle and one text label per node, joined in data order. -/
structure Visualization where
  lines : List LineElem
  circles : List CircleElem
  labels : List TextElem
  deriving Repr, DecidableEq

/-- The data-binding part of `setupVisualization`: the `.data(...).join(...)`
calls create exactly one element per record, in order, and set the static
attributes. -/
def setupVisualization (data : SaintsData) : Visualization :=
  { lines := data.links.map (fun d =>
      { datum := d
        strokeWidth := if d.type = "mentor" then 3 else if d.type = "order" then 2 else 1 })
    circles := data.nodes.map (fun d =>
      { datum := d, r := d.size, fill := colorMap d.type })
    labels := data.nodes.map (fun d =>
      { datum := d, text := labelText d.name, dy := d.size + 15 }) }

/-- What the `#network` container holds after `init`: either the error
paragraph installed by the `catch` block, or the visualization. -/
inductive NetworkContent where
  | errorMessage (html : String)
  | visualization (v : Visualization)
  deriving Repr, DecidableEq

/-- The error paragraph `init` writes into `#network` on failure. -/
def errorHtml : String :=
  "<p style=\"text-align: center; color: #8B4513;\">Error loading saints data. Please check that all files are present.</p>"

/-- The `init` entry point: the fetch-and-parse of `data/saints.json` either
yields a document or throws; the `catch` block replaces `#network` with the
static error paragraph, otherwise `setupVisualization` runs. -/
def init (response : Except String SaintsData) : NetworkContent :=
  match response with
  | Except.ok data => NetworkContent.visualization (setupVisualization data)
  | Except.error _ => NetworkContent.errorMessage errorHtml

/-- A node circle with the opacity style the filter functions set. -/
structure NodeElem where
  datum : SaintNode
  opacity : ℚ
  deriving Repr, DecidableEq

/-- A node label with the opacity style the filter functions set. -/
structure LabelElem where
  datum : SaintNode
  opacity : ℚ
  deriving Repr, DecidableEq

/-- A link line with the opacity style the filter functions set. -/
structure LinkElem where
  datum : SaintLink
  opacity : ℚ
  deriving Repr, DecidableEq

/-- The mutable page state the filter functions touch: the three element
selections, the `currentFilter` variable, and which button carries the
`active` class (identified by its `onclick` selector string). -/
structure AppState where
  node : List NodeElem
  label : List LabelElem
  link : List LinkElem
  currentFilter : String
  activeButton : String
  deriving Repr, DecidableEq

/-- The selector `updateButtons` activates for a filter value. -/
def activeSelector (currentFilter : String) : String :=
  if currentFilter = "all" then
    "button[onclick=\x27filterAll()\x27]"
  else
    "button[onclick=\"filterByType(\x27" ++ currentFilter ++ "\x27)\"]"

/-- The `updateButtons` function: clear every `active` class, then set it on
the button whose `onclick` matches `currentFilter`. -/
def updateButtons (s : AppState) : AppState :=
  { s with activeButton := activeSelector s.currentFilter }

/-- The `filterAll` button callback: reset `currentFilter`, update the
buttons, and restore every element's opacity. -/
def filterAll (s : AppState) : AppState :=
  let s := updateButtons { s with currentFilter := "all" }
  { s with
    node := s.node.map (fun e => { e with opacity := 1 })
    label := s.label.map (fun e => { e with opacity := 1 })
    link := s.link.map (fun e => { e with opacity := 7/10 }) }

/-- The `filterByType` button callback: record the filter, update the
buttons, and set each element's opacity by whether its category matches. -/
def filterByType (type : String) (s : AppState) : AppState :=
  let s := updateButtons { s with currentFilter := type }
  { s with
    node := s.node.map (fun e =>
      { e with opacity := if e.datum.type = type then 1 else 1/5 })
    label := s.label.map (fun e =>
      { e with opacity := if e.datum.type = type then 1 else 1/5 })
    link := s.link.map (fun e =>
      { e with opacity :=
          if e.datum.source.type = type ∨ e.datum.target.type = type
          then 7/10 else 1/10 }) }

/-- What `handleMouseOver` writes to the tooltip: the HTML and the two
placement styles. Pointer coordinates are taken as integers so that the JS
number-to-string coercion is ordinary integer printing. -/
structure TooltipRender where
  html : String
  left : String
  top : String
  deriving Repr, DecidableEq

/-- The year rendering of `handleMouseOver`: negative years print their
absolute value with BC, others with AD. -/
def yearDisplay (year : Int) : String :=
  if year < 0 then toString year.natAbs ++ " BC" else toString year ++ " AD"

/-- The tooltip template of `handleMouseOver` as a function of the hovered
node's descriptive fields. -/
def tooltipHtml (d : SaintNode) : String :=
  let lifespan := d.deathYear - d.birthYear
  let birthDisplay := yearDisplay d.birthYear
  let deathDisplay := yearDisplay d.deathYear
  "\n            <h3>" ++ d.name ++ "</h3>\n            " ++
  "<p class=\"feast-day\">Feast Day: " ++ d.feastDay ++ "</p>\n            " ++
  "<p><strong>Life:</strong> " ++ birthDisplay ++ " - " ++ deathDisplay ++
  " (" ++ toString lifespan ++ " years)</p>\n            " ++
  "<p><strong>Location:</strong> " ++ d.location ++ "</p>\n            " ++
  "<p><strong>Patronage:</strong> " ++ d.patronage ++ "</p>\n            " ++
  "<p><em>" ++ d.description ++ "</em></p>\n        "

/-- The tooltip part of `handleMouseOver`: the HTML template and the
placement at `(pageX + 10, pageY - 10)`. -/
def handleMouseOver (pageX pageY : Int) (d : SaintNode) : TooltipRender :=
  { html := tooltipHtml d
    left := toString (pageX + 10) ++ "px"
    top := toString (pageY - 10) ++ "px" }

/-- One event of the drag behaviour returned by `drag(simulation)`. -/
inductive DragEvent where
  | dragStart
  | dragMove (eventX eventY : Int)
  | dragStop
  deriving Repr, DecidableEq

/-- A node together with whether a drag gesture on it is in progress (d3
fires `drag` only between `start` and `end`). -/
structure DragState where
  subject : SaintNode
  dragging : Bool
  deriving Repr, DecidableEq

/-- One step of the drag behaviour: `dragstarted`, `dragged` or
`dragended` applied to the subject. -/
def dragStep (s : DragState) : DragEvent → DragState
  | DragEvent.dragStart => { subject := dragstarted s.subject, dragging := true }
  | DragEvent.dragMove ex ey => { subject := dragged s.subject ex ey, dragging := s.dragging }
  | DragEvent.dragStop => { subject := dragended s.subject, dragging := false }

/-- Event sequences d3's drag behaviour can fire: `start` only outside a
gesture, `drag` only inside one, `end` closes it. -/
def wfTrace : Bool → List DragEvent → Bool
  | _, [] => true
  | d, DragEvent.dragStart :: rest => !d && wfTrace true rest
  | d, DragEvent.dragMove _ _ :: rest => d && wfTrace d rest
  | d, DragEvent.dragStop :: rest => d && wfTrace false rest

/-- Run a sequence of drag events from a state. -/
def runDrag (s : DragState) (events : List DragEvent) : DragState :=
  events.foldl dragStep s

/-- The `details` object literal of `getRelationshipDetail`, in source
order. -/
def detailsTable : List (String × String) :=
  [("peter-paul", "Both apostles who worked together in the early Church"),
   ("peter-john", "Fellow apostles and close companions of Jesus"),
   ("paul-john", "Collaborated in spreading Christianity"),
   ("peter-stephen", "Peter likely ordained Stephen as first deacon"),
   ("augustine-benedict", "Augustine's writings influenced Benedict's Rule"),
   ("augustine-aquinas", "Aquinas built upon Augustine's theological foundation"),
   ("paul-augustine", "Augustine was deeply influenced by Paul's letters"),
   ("benedict-francis", "Francis was inspired by monastic tradition"),
   ("francis-dominic", "Contemporary founders with different approaches"),
   ("francis-anthony", "Anthony joined the Franciscan order under Francis"),
   ("francis-clare", "Francis guided Clare in founding the Poor Clares"),
   ("dominic-aquinas", "Aquinas was a Dominican friar"),
   ("ignatius-teresa-avila", "Counter-Reformation reformers and mystics"),
   ("teresa-avila-john-cross", "Teresa guided John in mystical theology"),
   ("augustine-jerome", "Corresponded frequently about theological matters"),
   ("aquinas-catherine-siena", "Catherine was influenced by Dominican theology"),
   ("teresa-avila-therese", "Thérèse was inspired by Teresa's writings"),
   ("therese-padre-pio", "Both promoted devotion to the Sacred Heart"),
   ("francis-padre-pio", "Padre Pio was a Franciscan friar"),
   ("lawrence-cecilia", "Both Roman martyrs of the 3rd century"),
   ("patrick-benedict", "Patrick's missionary work influenced monasticism"),
   ("mary-john", "Mary entrusted to John's care at the crucifixion"),
   ("mary-joseph", "Holy Family - married and raised Jesus together"),
   ("mary-john-baptist", "John the Baptist announced Jesus' coming to Mary"),
   ("mary-mary-magdalene", "Both witnessed Jesus' crucifixion and resurrection"),
   ("joseph-john-baptist", "Both central figures in Jesus' early life"),
   ("john-baptist-peter", "John baptized Jesus, Peter became first Pope"),
   ("john-baptist-john", "John the Baptist was John the Apostle's namesake"),
   ("mary-magdalene-peter", "First witnesses to the resurrection"),
   ("mary-magdalene-paul", "Both experienced dramatic conversions"),
   ("monica-augustine", "Monica prayed for Augustine's conversion for years"),
   ("martin-tours-augustine", "Both bishops and theologians of the 4th century"),
   ("martin-tours-benedict", "Martin's monasticism influenced Benedict"),
   ("basil-augustine", "Both Church Fathers and bishops"),
   ("basil-jerome", "Both translated and preserved Scripture"),
   ("elizabeth-hungary-francis", "Both devoted to serving the poor"),
   ("elizabeth-hungary-dominic", "Elizabeth inspired by Dominican spirituality"),
   ("joan-arc-catherine-siena", "Both received visions and influenced politics"),
   ("mary-teresa-avila", "Teresa had deep Marian devotion"),
   ("mary-therese", "Thérèse's 'Little Way' centered on Mary"),
   ("mother-teresa-john-paul-ii", "John Paul II supported Mother Teresa's work"),
   ("maximilian-kolbe-john-paul-ii", "Both Polish saints, John Paul beatified Kolbe"),
   ("maximilian-kolbe-francis", "Kolbe was a Franciscan friar and martyr"),
   ("john-chrysostom-basil", "Cappadocian Fathers and theologians"),
   ("gregory-nazianzus-basil", "Cappadocian Fathers, defended Trinity"),
   ("john-chrysostom-gregory-nazianzus", "Both great preachers and theologians"),
   ("john-xxiii-john-paul-ii", "John XXIII's reforms influenced John Paul II"),
   ("faustina-john-paul-ii", "John Paul II canonized Faustina, promoted Divine Mercy"),
   ("faustina-therese", "Both promoted trust in God's mercy"),
   ("rose-lima-teresa-avila", "Both mystics influenced by Carmelite spirituality"),
   ("rose-lima-dominic", "Rose was a Dominican tertiary"),
   ("mother-teresa-therese", "Teresa inspired by Thérèse's 'Little Way'")]

/-- A JS object property access `details[key]`: the first binding wins
(an object literal keeps the last duplicate, but the table has no duplicate
keys, and `find?` matches the object semantics then). -/
def lookupDetails (k : String) : Option String :=
  (detailsTable.find? (fun p => p.1 = k)).map Prod.snd

/-- The fallback string of `getRelationshipDetail`. -/
def fallbackDetail : String :=
  "These saints shared important connections in Church history"

/-- JS `a || b` where `a` is a string property access: `undefined` and the
empty string are falsy. -/
def jsOr (a : Option String) (b : String) : String :=
  match a with
  | none => b
  | some s => if s = "" then b else s

/-- The `getRelationshipDetail` function: probe the table under both
orderings of the endpoint identifiers, falling back to a generic line. -/
def getRelationshipDetail (d : SaintLink) : String :=
  let key1 := d.source.id ++ "-" ++ d.target.id
  let key2 := d.target.id ++ "-" ++ d.source.id
  jsOr (lookupDetails key1) (jsOr (lookupDetails key2) fallbackDetail)

/-- A link with its endpoints exchanged. -/
def swapLink (d : SaintLink) : SaintLink :=
  { d with source := d.target, target := d.source }

/-- A pinned coordinate that is present and lies in `[lo, hi]`. -/
def pinnedWithin (lo hi : Int) : Option Int → Prop
  | none => False
  | some v => lo ≤ v ∧ v ≤ hi

/-- The drag invariant: a node is pinned exactly while a gesture on it is in
progress. -/
def dragInv (s : DragState) : Prop :=
  s.subject.fx.isSome = s.dragging ∧ s.subject.fy.isSome = s.dragging

/-- All ways to cut a character list at a hyphen: the pairs `(a, b)` with
`k = a ++ '-' :: b`. -/
def hyphenSplits : List Char → List (List Char × List Char)
  | [] => []
  | c :: rest =>
    (if c = '-' then [(([] : List Char), rest)] else []) ++
      (hyphenSplits rest).map (fun p => (c :: p.1, p.2))

/-- For a single key: every reading of it as `source-target` probes, when
reversed, either the key itself or no entry of the table at all. -/
def revProbeOk (k : String) : Bool :=
  (hyphenSplits k.data).all (fun p =>
    let rev := String.mk (p.2 ++ '-' :: p.1)
    rev == k || (lookupDetails rev).isNone)

/-- The table holds no pair of keys in both endpoint orders. -/
def symOk : Bool :=
  detailsTable.all (fun kv => revProbeOk kv.1)

/-- A concrete saint record used to instantiate the theorems. -/
def sampleNode : SaintNode :=
  { id := "peter"
    name := "St. Peter"
    type := "apostle"
    size := 20
    feastDay := "June 29"
    birthYear := -1
    deathYear := 64
    location := "Rome"
    patronage := "Fishermen"
    description := "First Pope and leader of the apostles"
    x := 600
    y := 350
    fx := none
    fy := none }

/-- A node whose radius exceeds half the viewport height. -/
def bigNode : SaintNode :=
  { sampleNode with size := 400, x := 100, y := 100 }

/-- A node that differs from `sampleNode` in every field the tooltip does
not read. -/
def tooltipTwin : SaintNode :=
  { sampleNode with
    id := "petrus"
    type := "martyr"
    size := 99
    x := 0
    y := 0
    fx := some 5
    fy := some 6 }

/-- A well-formed drag gesture: start, one move, end. -/
def sampleEvents : List DragEvent :=
  [DragEvent.dragStart, DragEvent.dragMove 100 200, DragEvent.dragStop]

/-- A link between two identifiers that appear in no key of the table. -/
def strangerLink : SaintLink :=
  { source := { sampleNode with id := "foo" }
    target := { sampleNode with id := "bar" }
    type := "friend" }

/-- How many SVG elements the `#network` container shows: the static error
paragraph contains none; the visualization shows its lines, circles and
labels. -/
def renderedElementCount : NetworkContent → Nat
  | NetworkContent.errorMessage _ => 0
  | NetworkContent.visualization v => v.lines.length + v.circles.length + v.labels.length

/-- Apply a sequence of category filters in order. -/
def applyFilters (ts : List String) (s : AppState) : AppState :=
  ts.foldl (fun acc t => filterByType t acc) s

end Saints

namespace Saints

/-! ### Helper lemmas -/

/-- Clamping, `filterByType` and `filterAll` never touch the bound data:
only the opacity changes. -/
theorem filterByType_preserves_data (t : String) (s : AppState) :
    (filterByType t s).node.map NodeElem.datum = s.node.map NodeElem.datum ∧
    (filterByType t s).label.map LabelElem.datum = s.label.map LabelElem.datum ∧
    (filterByType t s).link.map LinkElem.datum = s.link.map LinkElem.datum := by
  refine ⟨?_, ?_, ?_⟩ <;> simp [filterByType, updateButtons, List.map_map, Function.comp]

/-- Any sequence of `filterByType` calls leaves the bound data unchanged. -/
theorem applyFilters_preserves_data (ts : List String) (s : AppState) :
    (applyFilters ts s).node.map NodeElem.datum = s.node.map NodeElem.datum ∧
    (applyFilters ts s).label.map LabelElem.datum = s.label.map LabelElem.datum ∧
    (applyFilters ts s).link.map LinkElem.datum = s.link.map LinkElem.datum := by
  induction ts generalizing s with
  | nil => exact ⟨rfl, rfl, rfl⟩
  | cons t ts ih =>
    obtain ⟨h1, h2, h3⟩ := ih (filterByType t s)
    obtain ⟨g1, g2, g3⟩ := filterByType_preserves_data t s
    exact ⟨h1.trans g1, h2.trans g2, h3.trans g3⟩

/-- `filterAll` only looks at the bound data, so two states with the same
data are sent to the same state. -/
theorem filterAll_eq_of_data_eq (s1 s2 : AppState)
    (h1 : s1.node.map NodeElem.datum = s2.node.map NodeElem.datum)
    (h2 : s1.label.map LabelElem.datum = s2.label.map LabelElem.datum)
    (h3 : s1.link.map LinkElem.datum = s2.link.map LinkElem.datum) :
    filterAll s1 = filterAll s2 := by
  have e1 := congrArg (List.map (fun d => NodeElem.mk d 1)) h1
  have e2 := congrArg (List.map (fun d => LabelElem.mk d 1)) h2
  have e3 := congrArg (List.map (fun d => LinkElem.mk d (7/10))) h3
  simp only [List.map_map, Function.comp] at e1 e2 e3
  simp [filterAll, updateButtons, activeSelector]
  exact ⟨e1, e2, e3⟩

/-- Every way of writing a list as `a ++ '-' :: b` is one of its hyphen
splits. -/
theorem mem_hyphenSplits (a b : List Char) : (a, b) ∈ hyphenSplits (a ++ '-' :: b) := by
  induction a with
  | nil => simp [hyphenSplits]
  | cons c a ih =>
    simp only [List.cons_append, hyphenSplits]
    exact List.mem_append_right _ (List.mem_map_of_mem _ ih)

set_option maxRecDepth 8000 in
/-- The detail table passes the reversed-key probe: no key, cut at any of
its hyphens and reversed, hits a different entry. -/
theorem symOk_eq_true : symOk = true := by decide

/-- The character list of a probe key `s ++ "-" ++ t`. -/
theorem key_data (s t : String) : (s ++ "-" ++ t).data = s.data ++ '-' :: t.data := by
  simp [String.data_append]

/-- A successful lookup means the probe key is literally one of the table's
keys. -/
theorem lookupDetails_isKey (k v : String) (h : lookupDetails k = some v) :
    ∃ kv ∈ detailsTable, kv.1 = k := by
  unfold lookupDetails at h
  obtain ⟨p, hp, hv⟩ := Option.map_eq_some'.mp h
  exact ⟨p, List.mem_of_find?_eq_some hp, by simpa using List.find?_some hp⟩

/-- When the forward probe of `getRelationshipDetail` hits the table, the
reversed probe hits nothing new: it is the same key or misses. -/
theorem rev_lookup_none (s t v : String) (h : lookupDetails (s ++ "-" ++ t) = some v) :
    t ++ "-" ++ s = s ++ "-" ++ t ∨ lookupDetails (t ++ "-" ++ s) = none := by
  obtain ⟨kv, hmem, hk⟩ := lookupDetails_isKey _ _ h
  have hall : revProbeOk kv.1 = true := List.all_eq_true.mp symOk_eq_true kv hmem
  rw [hk] at hall
  have hsplit : (s.data, t.data) ∈ hyphenSplits (s ++ "-" ++ t).data := by
    rw [key_data]; exact mem_hyphenSplits _ _
  have hprobe := List.all_eq_true.mp hall _ hsplit
  have hmk : String.mk (t.data ++ '-' :: s.data) = t ++ "-" ++ s := by
    apply String.ext
    rw [key_data]
  simp only [hmk, Bool.or_eq_true] at hprobe
  rcases hprobe with h1 | h2
  · exact Or.inl (eq_of_beq h1)
  · exact Or.inr (Option.isNone_iff_eq_none.mp h2)

/-- The drag invariant is preserved along any well-formed event trace. -/
theorem dragInv_run (events : List DragEvent) (s : DragState)
    (h : dragInv s) (hwf : wfTrace s.dragging events = true) :
    dragInv (runDrag s events) := by
  induction events generalizing s with
  | nil => exact h
  | cons ev rest ih =>
    cases ev with
    | dragStart =>
      simp only [wfTrace, Bool.and_eq_true, Bool.not_eq_true'] at hwf
      exact ih (dragStep s DragEvent.dragStart) ⟨rfl, rfl⟩ hwf.2
    | dragMove ex ey =>
      simp only [wfTrace, Bool.and_eq_true] at hwf
      refine ih (dragStep s (DragEvent.dragMove ex ey)) ⟨?_, ?_⟩ hwf.2 <;>
        simp [dragStep, dragged, hwf.1]
    | dragStop =>
      simp only [wfTrace, Bool.and_eq_true] at hwf
      exact ih (dragStep s DragEvent.dragStop) ⟨rfl, rfl⟩ hwf.2

/-! ### The claims -/

/-- Claim C1, counterexample: the clamp does not keep every node inside the
claimed bounds.  For a node of radius 400 the tick clamp `updatePositions`
puts `y` at 400, above `height - size = 300`, so the claimed interval
`[size, height - size]` is missed (it is empty). -/
theorem updatePositions_escapes_claimed_bounds :
    ¬ (∀ d ∈ updatePositions [bigNode],
        d.size ≤ d.x ∧ d.x ≤ width - d.size ∧ d.size ≤ d.y ∧ d.y ≤ height - d.size) := by
  decide

/-- Claim C1 (amended): for every node whose diameter fits the viewport
(`2*size ≤ width` and `2*size ≤ height`), the tick clamp `updatePositions`
forces `x` into `[size, width - size]` and `y` into `[size, height - size]`,
and during a drag step `dragged` pins the node inside the same bounds. -/
theorem clamped_positions_in_viewport (d : SaintNode) (ex ey : Int)
    (hw : 2 * d.size ≤ width) (hh : 2 * d.size ≤ height) :
    d.size ≤ (updateNodePosition d).x ∧ (updateNodePosition d).x ≤ width - d.size ∧
    d.size ≤ (updateNodePosition d).y ∧ (updateNodePosition d).y ≤ height - d.size ∧
    pinnedWithin d.size (width - d.size) (dragged d ex ey).fx ∧
    pinnedWithin d.size (height - d.size) (dragged d ex ey).fy := by
  refine ⟨?_, ?_, ?_, ?_, ?_, ?_⟩ <;>
    simp only [updateNodePosition, dragged, pinnedWithin, width, height] at * <;>
    omega

/-- Witness for the amended C1 at a concrete node and pointer position. -/
theorem clamped_positions_in_viewport_witness :
    (2 * sampleNode.size ≤ width ∧ 2 * sampleNode.size ≤ height) ∧
    (sampleNode.size ≤ (updateNodePosition sampleNode).x ∧
     (updateNodePosition sampleNode).x ≤ width - sampleNode.size ∧
     sampleNode.size ≤ (updateNodePosition sampleNode).y ∧
     (updateNodePosition sampleNode).y ≤ height - sampleNode.size ∧
     pinnedWithin sampleNode.size (width - sampleNode.size) (dragged sampleNode 5000 (-50)).fx ∧
     pinnedWithin sampleNode.size (height - sampleNode.size) (dragged sampleNode 5000 (-50)).fy) :=
  ⟨⟨by decide, by decide⟩,
   clamped_positions_in_viewport sampleNode 5000 (-50) (by decide) (by decide)⟩

/-- Claim C9: the in-viewport guarantee of the clamp holds exactly under the
precondition that the node's diameter fits the dimension; when the radius
exceeds half the dimension, `Math.max` wins with `size`, which lies above
`width - size` (resp. `height - size`), so the node is placed outside the
claimed bounds rather than rejected, both on a tick and during a drag. -/
theorem clamp_guarantee_only_when_fits (d : SaintNode) (ex ey : Int) :
    (2 * d.size ≤ width →
      d.size ≤ (updateNodePosition d).x ∧ (updateNodePosition d).x ≤ width - d.size) ∧
    (2 * d.size ≤ height →
      d.size ≤ (updateNodePosition d).y ∧ (updateNodePosition d).y ≤ height - d.size) ∧
    (width < 2 * d.size →
      (updateNodePosition d).x = d.size ∧ width - d.size < d.size) ∧
    (height < 2 * d.size →
      (updateNodePosition d).y = d.size ∧ height - d.size < d.size) ∧
    (width < 2 * d.size →
      (dragged d ex ey).fx = some d.size ∧ width - d.size < d.size) ∧
    (height < 2 * d.size →
      (dragged d ex ey).fy = some d.size ∧ height - d.size < d.size) := by
  refine ⟨?_, ?_, ?_, ?_, ?_, ?_⟩ <;> intro h <;>
    simp only [updateNodePosition, dragged, width, height, Option.some.injEq] at * <;>
    omega

/-- Witness for C9: a node of radius 400 gets `y = 400`, strictly above
`height - 400 = 300`. -/
theorem clamp_guarantee_only_when_fits_witness :
    height < 2 * bigNode.size ∧
    ((updateNodePosition bigNode).y = bigNode.size ∧ height - bigNode.size < bigNode.size) :=
  ⟨by decide, (clamp_guarantee_only_when_fits bigNode 0 0).2.2.2.1 (by decide)⟩

/-- Claim C2: for every category `t`, `filterByType t` sets opacity 1 on
exactly the nodes and labels whose `type` is `t` and 0.2 on the others, and
0.7 on exactly the links one of whose endpoints has type `t` and 0.1 on the
others. -/
theorem filterByType_sets_opacities (t : String) (s : AppState) :
    (filterByType t s).node.map NodeElem.opacity
      = s.node.map (fun e => if e.datum.type = t then 1 else 1/5) ∧
    (filterByType t s).label.map LabelElem.opacity
      = s.label.map (fun e => if e.datum.type = t then 1 else 1/5) ∧
    (filterByType t s).link.map LinkElem.opacity
      = s.link.map (fun e =>
          if e.datum.source.type = t ∨ e.datum.target.type = t then (7 : ℚ)/10 else 1/10) := by
  refine ⟨?_, ?_, ?_⟩ <;> simp [filterByType, updateButtons, List.map_map, Function.comp]

/-- Claim C3: `init` has exactly one error path.  A failed fetch or parse
replaces `#network` with the static error paragraph and renders no visual
element; a parsed document always reaches `setupVisualization`, which
creates every element without validating any record (the counts below hold
for every document, including one whose links dangle). -/
theorem init_single_error_path (e : String) (data : SaintsData) :
    init (Except.error e) = NetworkContent.errorMessage errorHtml ∧
    renderedElementCount (init (Except.error e)) = 0 ∧
    init (Except.ok data) = NetworkContent.visualization (setupVisualization data) ∧
    renderedElementCount (init (Except.ok data))
      = data.links.length + data.nodes.length + data.nodes.length := by
  refine ⟨rfl, rfl, rfl, ?_⟩
  simp [init, renderedElementCount, setupVisualization]

/-- Claim C4: `setupVisualization` populates exactly `n` circles, `n` text
labels and `m` lines for a document of `n` nodes and `m` links, the i-th
element bound to the i-th record. -/
theorem setupVisualization_element_counts (data : SaintsData) (i : Nat) :
    (setupVisualization data).circles.length = data.nodes.length ∧
    (setupVisualization data).labels.length = data.nodes.length ∧
    (setupVisualization data).lines.length = data.links.length ∧
    ((setupVisualization data).circles[i]?).map CircleElem.datum = data.nodes[i]? ∧
    ((setupVisualization data).labels[i]?).map TextElem.datum = data.nodes[i]? ∧
    ((setupVisualization data).lines[i]?).map LineElem.datum = data.links[i]? := by
  refine ⟨by simp [setupVisualization], by simp [setupVisualization],
          by simp [setupVisualization], ?_, ?_, ?_⟩ <;>
    simp only [setupVisualization, List.getElem?_map]
  · cases data.nodes[i]? <;> rfl
  · cases data.nodes[i]? <;> rfl
  · cases data.links[i]? <;> rfl

/-- Claim C5: `filterAll` restores full visibility whatever went before:
every node and label gets opacity 1, every link 0.7, `currentFilter`
becomes `all`, and running it after any sequence of `filterByType` calls
produces the very same state as running it directly. -/
theorem filterAll_restores_visibility (s : AppState) (ts : List String) :
    (filterAll s).node.map NodeElem.opacity = s.node.map (fun _ => (1 : ℚ)) ∧
    (filterAll s).label.map LabelElem.opacity = s.label.map (fun _ => (1 : ℚ)) ∧
    (filterAll s).link.map LinkElem.opacity = s.link.map (fun _ => (7 : ℚ)/10) ∧
    (filterAll s).currentFilter = "all" ∧
    filterAll (applyFilters ts s) = filterAll s := by
  obtain ⟨h1, h2, h3⟩ := applyFilters_preserves_data ts s
  refine ⟨?_, ?_, ?_, rfl, filterAll_eq_of_data_eq _ _ h1 h2 h3⟩ <;>
    simp [filterAll, updateButtons, List.map_map, Function.comp_def]

/-- Claim C6: `fx`/`fy` are pinned only during a drag.  `dragstarted` sets
them to the current position, `dragged` keeps them set, `dragended` resets
both to `null`; along every well-formed gesture trace starting unpinned,
the fields are present exactly while a gesture is in progress. -/
theorem fx_pinned_only_while_dragging (n : SaintNode) (ex ey : Int)
    (events : List DragEvent)
    (hx : n.fx = none) (hy : n.fy = none) (hwf : wfTrace false events = true) :
    (dragstarted n).fx = some n.x ∧ (dragstarted n).fy = some n.y ∧
    ((dragged n ex ey).fx).isSome = true ∧ ((dragged n ex ey).fy).isSome = true ∧
    (dragended n).fx = none ∧ (dragended n).fy = none ∧
    ((runDrag ⟨n, false⟩ events).subject.fx).isSome = (runDrag ⟨n, false⟩ events).dragging ∧
    ((runDrag ⟨n, false⟩ events).subject.fy).isSome = (runDrag ⟨n, false⟩ events).dragging := by
  have hinv : dragInv ⟨n, false⟩ := ⟨by simp [hx], by simp [hy]⟩
  have h := dragInv_run events ⟨n, false⟩ hinv hwf
  exact ⟨rfl, rfl, rfl, rfl, rfl, rfl, h.1, h.2⟩

/-- Witness for C6 over a concrete complete gesture. -/
theorem fx_pinned_only_while_dragging_witness :
    (sampleNode.fx = none ∧ sampleNode.fy = none ∧ wfTrace false sampleEvents = true) ∧
    ((runDrag ⟨sampleNode, false⟩ sampleEvents).subject.fx).isSome
      = (runDrag ⟨sampleNode, false⟩ sampleEvents).dragging :=
  ⟨⟨rfl, rfl, by decide⟩,
   (fx_pinned_only_while_dragging sampleNode 1 2 sampleEvents rfl rfl
      (by decide)).2.2.2.2.2.2.1⟩

/-- Claim C7: the tooltip written by `handleMouseOver` is a deterministic
function of the hovered node's descriptive fields and the pointer position:
two invocations agreeing on those produce identical HTML and identical
left/top placement, whatever the nodes' other state. -/
theorem handleMouseOver_deterministic (d1 d2 : SaintNode) (px1 py1 px2 py2 : Int)
    (hname : d1.name = d2.name) (hfeast : d1.feastDay = d2.feastDay)
    (hbirth : d1.birthYear = d2.birthYear) (hdeath : d1.deathYear = d2.deathYear)
    (hloc : d1.location = d2.location) (hpat : d1.patronage = d2.patronage)
    (hdesc : d1.description = d2.description) (hpx : px1 = px2) (hpy : py1 = py2) :
    handleMouseOver px1 py1 d1 = handleMouseOver px2 py2 d2 := by
  simp [handleMouseOver, tooltipHtml, yearDisplay,
        hname, hfeast, hbirth, hdeath, hloc, hpat, hdesc, hpx, hpy]

/-- Witness for C7: two nodes differing in id, category, radius, position
and pinning but agreeing on the tooltip fields yield the same render. -/
theorem handleMouseOver_deterministic_witness :
    (sampleNode.name = tooltipTwin.name ∧ sampleNode.feastDay = tooltipTwin.feastDay ∧
     sampleNode.birthYear = tooltipTwin.birthYear ∧
     sampleNode.deathYear = tooltipTwin.deathYear ∧
     sampleNode.location = tooltipTwin.location ∧
     sampleNode.patronage = tooltipTwin.patronage ∧
     sampleNode.description = tooltipTwin.description ∧
     ¬ sampleNode = tooltipTwin) ∧
    handleMouseOver 25 40 sampleNode = handleMouseOver 25 40 tooltipTwin :=
  ⟨⟨rfl, rfl, rfl, rfl, rfl, rfl, rfl, by decide⟩,
   handleMouseOver_deterministic sampleNode tooltipTwin 25 40 25 40
     rfl rfl rfl rfl rfl rfl rfl rfl rfl⟩

/-- Claim C8: the filter operations only change opacities, `currentFilter`
and the active button; the bound node and link records, and with them every
`x`, `y`, `fx`, `fy`, `size`, `type` and both link endpoints, are left
unchanged. -/
theorem filters_only_change_opacity (t : String) (s : AppState) :
    (filterByType t s).node.map NodeElem.datum = s.node.map NodeElem.datum ∧
    (filterByType t s).label.map LabelElem.datum = s.label.map LabelElem.datum ∧
    (filterByType t s).link.map LinkElem.datum = s.link.map LinkElem.datum ∧
    (filterAll s).node.map NodeElem.datum = s.node.map NodeElem.datum ∧
    (filterAll s).label.map LabelElem.datum = s.label.map LabelElem.datum ∧
    (filterAll s).link.map LinkElem.datum = s.link.map LinkElem.datum ∧
    (filterByType t s).currentFilter = t ∧
    (filterByType t s).activeButton = activeSelector t ∧
    (filterAll s).currentFilter = "all" ∧
    (filterAll s).activeButton = activeSelector "all" := by
  obtain ⟨h1, h2, h3⟩ := filterByType_preserves_data t s
  refine ⟨h1, h2, h3, ?_, ?_, ?_, rfl, rfl, rfl, rfl⟩ <;>
    simp [filterAll, updateButtons, List.map_map, Function.comp_def]

/-- Claim C10: `getRelationshipDetail` is total and symmetric in the link's
endpoints: swapping source and target yields the same string, and when
neither ordering of the identifiers is a key of the table the generic
fallback line is returned. -/
theorem getRelationshipDetail_total_symmetric (d : SaintLink) :
    getRelationshipDetail (swapLink d) = getRelationshipDetail d ∧
    (lookupDetails (d.source.id ++ "-" ++ d.target.id) = none →
     lookupDetails (d.target.id ++ "-" ++ d.source.id) = none →
     getRelationshipDetail d = fallbackDetail) := by
  constructor
  · rcases hA : lookupDetails (d.source.id ++ "-" ++ d.target.id) with _ | v <;>
      rcases hB : lookupDetails (d.target.id ++ "-" ++ d.source.id) with _ | w
    · simp [getRelationshipDetail, swapLink, hA, hB]
    · simp [getRelationshipDetail, swapLink, hA, hB, jsOr]
    · simp [getRelationshipDetail, swapLink, hA, hB, jsOr]
    · rcases rev_lookup_none _ _ _ hA with hEq | hnone
      · simp only [getRelationshipDetail, swapLink]
        rw [hEq]
      · rw [hnone] at hB
        cases hB
  · intro h1 h2
    simp [getRelationshipDetail, jsOr, h1, h2]

/-- Witness for C10 at a link between identifiers unknown to the table. -/
theorem getRelationshipDetail_total_symmetric_witness :
    (lookupDetails (strangerLink.source.id ++ "-" ++ strangerLink.target.id) = none ∧
     lookupDetails (strangerLink.target.id ++ "-" ++ strangerLink.source.id) = none) ∧
    getRelationshipDetail strangerLink = fallbackDetail :=
  ⟨⟨by decide, by decide⟩,
   (getRelationshipDetail_total_symmetric strangerLink).2 (by decide) (by decide)⟩

end Saints

namespace Saints
set_option maxRecDepth 4000 in
example : symOk = true := by decide
end Saints
